import Mathlib

/-!
Shallow embedding of the traffic_manager repository's decision core:
the dynamic threshold table, the traffic classifier (check_route_traffic),
the historical baseline estimator, the route-history update, the Discord
alert decision, the two batch orchestrators, and the ignition debounce
state machine.  Machine arithmetic from the Python source is modelled with
Nat (floor division on seconds) and Rat (float arithmetic on thresholds,
distances and ratios); database tables are lists of rows; HTTP calls are
explicit response arguments; raised exceptions are Except.error.
-/

namespace TrafficManager

/-- One threshold bucket of the `thresholds` config value
(traffic_utils.py, DEFAULT_THRESHOLDS / get_thresholds): a distance range
in kilometres plus the route-level and step-level trigger parameters. -/
structure Threshold where
  min_km : ℚ
  max_km : ℚ
  factor_total : ℚ
  factor_step : ℚ
  delay_total : ℚ
  delay_step : ℚ
deriving Repr, DecidableEq

/-- DEFAULT_THRESHOLDS (traffic_utils.py lines 280-285). -/
def DEFAULT_THRESHOLDS : List Threshold :=
  [⟨0, 2, 3, 1, 5, 1⟩,
   ⟨2, 5, 5/2, 2, 10, 2⟩,
   ⟨5, 20, 2, 3, 15, 5⟩,
   ⟨20, 50, 3/2, 4, 30, 10⟩]

/-- get_thresholds (traffic_utils.py lines 287-298): the stored config value
for key "thresholds"; a missing or empty value (Python falsy) is replaced by
the defaults (and written back, a side effect not needed here). -/
def get_thresholds (config : Option (List Threshold)) : List Threshold :=
  match config with
  | some (t :: ts) => t :: ts
  | _ => DEFAULT_THRESHOLDS

/-- Tuple of the four trigger values returned by get_dynamic_thresholds:
(factor_total, factor_step, delay_total, delay_step). -/
def threshold_values (t : Threshold) : ℚ × ℚ × ℚ × ℚ :=
  (t.factor_total, t.factor_step, t.delay_total, t.delay_step)

/-- The for-loop of get_dynamic_thresholds (traffic_utils.py lines 325-328):
return the first bucket whose inclusive range contains the distance. -/
def find_threshold : List Threshold → ℚ → Option Threshold
  | [], _ => none
  | t :: ts, d =>
    if t.min_km ≤ d ∧ d ≤ t.max_km then some t else find_threshold ts d

/-- get_dynamic_thresholds (traffic_utils.py lines 314-337): first matching
bucket, else the last configured bucket, else the hardcoded ultimate
fallback (2.0, 3.0, 15, 5).  The `thresholds` argument stands for the list
returned by get_thresholds(). -/
def get_dynamic_thresholds (thresholds : List Threshold) (distance_km : ℚ) :
    ℚ × ℚ × ℚ × ℚ :=
  match find_threshold thresholds distance_km with
  | some t => threshold_values t
  | none =>
    match thresholds.getLast? with
    | some t => threshold_values t
    | none => (2, 3, 15, 5)

lemma find_threshold_cons (t : Threshold) (ts : List Threshold) (d : ℚ) :
    find_threshold (t :: ts) d =
      if t.min_km ≤ d ∧ d ≤ t.max_km then some t else find_threshold ts d := rfl

lemma find_threshold_append_of_none (pre : List Threshold) (rest : List Threshold)
    (d : ℚ) (h : ∀ u ∈ pre, ¬(u.min_km ≤ d ∧ d ≤ u.max_km)) :
    find_threshold (pre ++ rest) d = find_threshold rest d := by
  induction pre with
  | nil => rfl
  | cons p ps ih =>
    rw [List.cons_append, find_threshold_cons,
      if_neg (h p (List.mem_cons_self p ps)), ih]
    intro u hu
    exact h u (List.mem_cons_of_mem p hu)

lemma find_threshold_eq_none (ts : List Threshold) (d : ℚ)
    (h : ∀ u ∈ ts, ¬(u.min_km ≤ d ∧ d ≤ u.max_km)) :
    find_threshold ts d = none := by
  induction ts with
  | nil => rfl
  | cons p ps ih =>
    rw [find_threshold_cons, if_neg (h p (List.mem_cons_self p ps))]
    exact ih fun u hu => h u (List.mem_cons_of_mem p hu)

/-- C3: for every distance and threshold list, get_dynamic_thresholds returns
the values of the first bucket in stored order with
min_km ≤ distance ≤ max_km; when no bucket matches and the list is non-empty
it returns the last bucket's values; only the empty list yields the hardcoded
constants (factor_total=2.0, factor_step=3.0, delay_total=15, delay_step=5). -/
theorem c3_dynamic_threshold_lookup (ts : List Threshold) (d : ℚ) :
    (∀ pre t post, ts = pre ++ t :: post →
        (∀ u ∈ pre, ¬(u.min_km ≤ d ∧ d ≤ u.max_km)) →
        (t.min_km ≤ d ∧ d ≤ t.max_km) →
        get_dynamic_thresholds ts d = threshold_values t) ∧
    ((∀ u ∈ ts, ¬(u.min_km ≤ d ∧ d ≤ u.max_km)) → ∀ tl, ts.getLast? = some tl →
        get_dynamic_thresholds ts d = threshold_values tl) ∧
    get_dynamic_thresholds [] d = (2, 3, 15, 5) := by
  refine ⟨?_, ?_, rfl⟩
  · intro pre t post hts hpre ht
    unfold get_dynamic_thresholds
    rw [hts, find_threshold_append_of_none pre (t :: post) d hpre,
      find_threshold_cons, if_pos ht]
  · intro hnone tl htl
    unfold get_dynamic_thresholds
    rw [find_threshold_eq_none ts d hnone, htl]

/-- Witness for C3 at the spec's example: distance 1000 km against the default
buckets (covering only 0-50 km) returns the last bucket's values, not the
hardcoded fallback. -/
theorem c3_dynamic_threshold_lookup_witness :
    get_dynamic_thresholds DEFAULT_THRESHOLDS 1000 =
      threshold_values ⟨20, 50, 3/2, 4, 30, 10⟩ := by
  refine (c3_dynamic_threshold_lookup DEFAULT_THRESHOLDS 1000).2.1 ?_ _ rfl
  intro u hu
  simp only [DEFAULT_THRESHOLDS, List.mem_cons, List.not_mem_nil, or_false] at hu
  rcases hu with h | h | h | h <;> subst h <;> norm_num

/-! Directions response data model (the parsed JSON consumed by
check_route_traffic).  Durations are seconds (ℕ), distance is metres (ℕ);
the optional duration_in_traffic carries the live-traffic seconds. -/

/-- One element of a leg's "steps" array. -/
structure Step where
  duration : ℕ
  duration_in_traffic : Option ℕ
  html_instructions : String
deriving Repr, DecidableEq

/-- The single leg of a directions route.  The Python code reads legs[0];
a single-waypoint directions request always yields exactly one leg, so the
embedding stores that leg directly. -/
structure Leg where
  duration : ℕ
  duration_in_traffic : Option ℕ
  distance : ℕ
  start_address : Option String
  end_address : Option String
  steps : List Step
deriving Repr, DecidableEq

/-- One element of the response's "routes" array. -/
structure ApiRoute where
  summary : Option String
  leg : Leg
deriving Repr, DecidableEq

/-- The parsed directions response body. -/
structure DirectionsData where
  routes : List ApiRoute
  error_message : Option String
deriving Repr, DecidableEq

/-- Filter of check_route_traffic line 387: keep routes whose first leg has
duration_in_traffic (a present JSON object is always truthy). -/
def routes_with_traffic (routes : List ApiRoute) : List ApiRoute :=
  routes.filter (fun r => r.leg.duration_in_traffic.isSome)

/-- The min key of check_route_traffic line 391: the leg's live duration. -/
def traffic_value (r : ApiRoute) : ℕ := r.leg.duration_in_traffic.getD 0

/-- Python min over a non-empty list with key traffic_value: scan left to
right keeping the current best, replacing it only on a strictly smaller key
(ties keep the earliest route). -/
def pick_fastest (first : ApiRoute) (rest : List ApiRoute) : ApiRoute :=
  rest.foldl (fun best r => if traffic_value r < traffic_value best then r else best) first

/-- Scanner for Python re.sub with a pattern that removes "<", a shortest
run of non-newline characters, then ">": find the text after the first ">"
reachable without crossing a newline, or none when the tag never closes. -/
def drop_tag : List Char → Option (List Char)
  | [] => none
  | c :: cs =>
    if c = '>' then some cs
    else if c = Char.ofNat 10 then none
    else drop_tag cs

lemma drop_tag_length {cs rest : List Char} (h : drop_tag cs = some rest) :
    rest.length ≤ cs.length := by
  induction cs with
  | nil => simp [drop_tag] at h
  | cons c cs ih =>
    unfold drop_tag at h
    split at h
    · cases h
      simp
    · split at h
      · cases h
      · exact le_trans (ih h) (Nat.le_succ _)

/-- Removal of markup tags from html_instructions
(check_route_traffic line 424). -/
def strip_tags : List Char → List Char
  | [] => []
  | c :: cs =>
    if c = '<' then
      match hd : drop_tag cs with
      | some rest => strip_tags rest
      | none => c :: strip_tags cs
    else c :: strip_tags cs
termination_by l => l.length
decreasing_by
  · exact Nat.lt_succ_of_le (drop_tag_length hd)
  · simp
  · simp

/-- Models the Python html.unescape call restricted to the basic HTML
entities that occur in Directions html_instructions strings. -/
def unescape_chars : List Char → List Char
  | [] => []
  | '&' :: 'a' :: 'm' :: 'p' :: ';' :: rest => '&' :: unescape_chars rest
  | '&' :: 'l' :: 't' :: ';' :: rest => '<' :: unescape_chars rest
  | '&' :: 'g' :: 't' :: ';' :: rest => '>' :: unescape_chars rest
  | '&' :: 'q' :: 'u' :: 'o' :: 't' :: ';' :: rest => Char.ofNat 34 :: unescape_chars rest
  | '&' :: '#' :: '3' :: '9' :: ';' :: rest => Char.ofNat 39 :: unescape_chars rest
  | '&' :: 'n' :: 'b' :: 's' :: 'p' :: ';' :: rest => ' ' :: unescape_chars rest
  | c :: rest => c :: unescape_chars rest

/-- The instruction text stored with a heavy segment (line 424):
html.unescape(re.sub(tag pattern, "", step["html_instructions"])). -/
def clean_instruction (s : String) : String :=
  ⟨unescape_chars (strip_tags s.data)⟩

/-- Rounding of a rational to the nearest integer with ties to even,
models Python round on an exactly represented value. -/
def round_half_even (q : ℚ) : ℤ :=
  let f := ⌊q⌋
  let r := q - f
  if r < 1/2 then f
  else if 1/2 < r then f + 1
  else if f % 2 = 0 then f else f + 1

/-- Python round(x, 2). -/
def round2 (q : ℚ) : ℚ := (round_half_even (q * 100) : ℚ) / 100

/-- One entry of heavy_segments (check_route_traffic lines 423-429). -/
structure Segment where
  instruction : String
  normal : ℕ
  live : ℕ
  delay : ℕ
  factor : ℚ
deriving Repr, DecidableEq

/-- Segment built from a step inside the loop body.  delay is
max(0, live - normal), which on ℕ is truncated subtraction. -/
def mk_segment (s : Step) : Segment :=
  let normal := s.duration / 60
  let live := s.duration_in_traffic.getD 0 / 60
  ⟨clean_instruction s.html_instructions, normal, live, live - normal,
    round2 ((live : ℚ) / (normal : ℚ))⟩

/-- Eligibility of a step for the segment test (lines 412-419): it must
carry duration_in_traffic and its normal duration must not floor to 0. -/
def step_eligible (s : Step) : Bool :=
  s.duration_in_traffic.isSome && !(s.duration / 60 == 0)

/-- The segment-level heavy condition of line 421:
delay ≥ delay_step or live ≥ normal * factor_step. -/
def step_heavy_test (factor_step delay_step : ℚ) (s : Step) : Bool :=
  let normal := s.duration / 60
  let live := s.duration_in_traffic.getD 0 / 60
  decide (((live - normal : ℕ) : ℚ) ≥ delay_step) ||
  decide ((live : ℚ) ≥ (normal : ℚ) * factor_step)

/-- The step loop of check_route_traffic (lines 411-429), in source order:
skip steps without live timing, skip steps whose normal floors to 0, and
for the rest set the heavy flag and append a segment when the segment-level
condition trips.  Returns (loop set is_heavy, heavy_segments). -/
def scan_steps (factor_step delay_step : ℚ) : List Step → Bool × List Segment
  | [] => (false, [])
  | step :: rest =>
    match step.duration_in_traffic with
    | none => scan_steps factor_step delay_step rest
    | some lt =>
      let normal := step.duration / 60
      let live := lt / 60
      if normal = 0 then scan_steps factor_step delay_step rest
      else if ((live - normal : ℕ) : ℚ) ≥ delay_step ∨ (live : ℚ) ≥ (normal : ℚ) * factor_step then
        let tail := scan_steps factor_step delay_step rest
        (true, mk_segment step :: tail.2)
      else scan_steps factor_step delay_step rest

/-- The effective_normal of check_route_traffic line 399:
`baseline if baseline else total_normal`.  Python truthiness makes a
present-but-zero baseline fall back to total_normal. -/
def effective_normal (baseline : Option ℚ) (total_normal : ℕ) : ℚ :=
  match baseline with
  | some b => if b = 0 then (total_normal : ℚ) else b
  | none => (total_normal : ℚ)

/-- Modelled from the spec's words for claim C1, for comparison with
`effective_normal` from the source: "use the supplied historical baseline
if present and non-null, else fall back to total_normal". -/
def effective_normal_spec (baseline : Option ℚ) (total_normal : ℕ) : ℚ :=
  match baseline with
  | some b => b
  | none => (total_normal : ℚ)

/-- The route-level heavy test of check_route_traffic lines 406-409:
heavy when total_delay ≥ delay_total, else when effective_normal > 0 and
total_live ≥ effective_normal * factor_total. -/
def route_level_heavy (factor_total delay_total en : ℚ)
    (total_live total_delay : ℕ) : Bool :=
  if (total_delay : ℚ) ≥ delay_total then true
  else if en > 0 ∧ (total_live : ℚ) ≥ en * factor_total then true
  else false

/-- The result dictionary returned by check_route_traffic (lines 433-443). -/
structure TrafficResult where
  summary : Option String
  start_address : Option String
  end_address : Option String
  total_normal : ℕ
  total_live : ℕ
  total_delay : ℕ
  distance_km : ℚ
  heavy_segments : List Segment
  state : String
deriving Repr, DecidableEq

/-- Straight-line tail of check_route_traffic (lines 392-443) applied to
the selected fastest route. -/
def classify (fastest : ApiRoute) (baseline : Option ℚ)
    (thresholds : List Threshold) : TrafficResult :=
  let leg := fastest.leg
  let total_normal := leg.duration / 60
  let total_live := leg.duration_in_traffic.getD 0 / 60
  let total_delay := total_live - total_normal
  let distance_km := (leg.distance : ℚ) / 1000
  let en := effective_normal baseline total_normal
  let tv := get_dynamic_thresholds thresholds distance_km
  let route_heavy := route_level_heavy tv.1 tv.2.2.1 en total_live total_delay
  let scanned := scan_steps tv.2.1 tv.2.2.2 leg.steps
  let state := if route_heavy || scanned.1 then "Heavy" else "Normal"
  { summary := fastest.summary
    start_address := leg.start_address
    end_address := leg.end_address
    total_normal := total_normal
    total_live := total_live
    total_delay := total_delay
    distance_km := distance_km
    heavy_segments := scanned.2
    state := state }

/-- check_route_traffic (traffic_utils.py lines 342-443) on an already
parsed directions response.  The `thresholds` argument stands for the
configured bucket list read through get_thresholds; raised exceptions are
modelled as Except.error carrying the exception message; the non-error
empty outcome (no routes, no error message) is ok none.  Python truthiness
of data.get("error_message") makes an empty string count as no message. -/
def check_route_traffic (data : DirectionsData) (baseline : Option ℚ)
    (thresholds : List Threshold) : Except String (Option TrafficResult) :=
  match data.routes with
  | [] =>
    match data.error_message with
    | some msg =>
      if msg = "" then Except.ok none
      else Except.error ("Google Maps API error: " ++ msg)
    | none => Except.ok none
  | r0 :: rs =>
    match routes_with_traffic (r0 :: rs) with
    | [] => Except.error "No routes with traffic data available"
    | f :: fs => Except.ok (some (classify (pick_fastest f fs) baseline thresholds))

lemma scan_steps_spec (f d : ℚ) (l : List Step) :
    (scan_steps f d l).2 =
      (l.filter (fun s => step_eligible s && step_heavy_test f d s)).map mk_segment ∧
    (scan_steps f d l).1 = !(scan_steps f d l).2.isEmpty := by
  induction l with
  | nil => simp [scan_steps]
  | cons s rest ih =>
    unfold scan_steps
    cases hdt : s.duration_in_traffic with
    | none =>
      have he : step_eligible s = false := by simp [step_eligible, hdt]
      simp [he, ih]
    | some lt =>
      by_cases hz : s.duration / 60 = 0
      · have he : step_eligible s = false := by simp [step_eligible, hdt, hz]
        simp [hz, he, ih]
      · have he : step_eligible s = true := by simp [step_eligible, hdt, hz]
        by_cases hc : ((lt / 60 - s.duration / 60 : ℕ) : ℚ) ≥ d ∨
            ((lt / 60 : ℕ) : ℚ) ≥ ((s.duration / 60 : ℕ) : ℚ) * f
        · have hh : step_heavy_test f d s = true := by
            simp only [step_heavy_test, hdt, Option.getD_some, Bool.or_eq_true,
              decide_eq_true_eq]
            exact hc
          simp [hz, hc, he, hh, ih]
        · have hh : step_heavy_test f d s = false := by
            simp only [step_heavy_test, hdt, Option.getD_some, Bool.or_eq_false_iff,
              decide_eq_false_iff_not]
            exact ⟨fun h1 => hc (Or.inl h1), fun h2 => hc (Or.inr h2)⟩
          simp [hz, hc, he, hh, ih]

lemma route_level_heavy_iff (ft dt en : ℚ) (l d : ℕ) :
    route_level_heavy ft dt en l d = true ↔
      ((d : ℚ) ≥ dt ∨ (en > 0 ∧ (l : ℚ) ≥ en * ft)) := by
  by_cases h1 : (d : ℚ) ≥ dt
  · simp [route_level_heavy, h1]
  · by_cases h2 : en > 0 ∧ (l : ℚ) ≥ en * ft
    · simp [route_level_heavy, h1, h2]
    · simp [route_level_heavy, h1, h2]

lemma heavy_state_iff (c : Bool) :
    (if c then "Heavy" else "Normal") = "Heavy" ↔ c = true := by
  cases c
  · constructor
    · intro h1; exact absurd h1 (by decide)
    · intro h1; exact absurd h1 (by decide)
  · simp

lemma scan_flag_iff (f d : ℚ) (l : List Step) :
    (scan_steps f d l).1 = true ↔ (scan_steps f d l).2 ≠ [] := by
  rw [(scan_steps_spec f d l).2]
  cases hsc : (scan_steps f d l).2 <;> simp [hsc]

lemma check_ok_some {data : DirectionsData} {b : Option ℚ} {ts : List Threshold}
    {res : TrafficResult}
    (h : check_route_traffic data b ts = Except.ok (some res)) :
    ∃ f fs, routes_with_traffic data.routes = f :: fs ∧
      res = classify (pick_fastest f fs) b ts := by
  obtain ⟨routes, err⟩ := data
  cases routes with
  | nil =>
    cases err with
    | none => simp [check_route_traffic] at h
    | some msg =>
      by_cases hm : msg = "" <;> simp [check_route_traffic, hm] at h
  | cons r0 rs =>
    cases hf : routes_with_traffic (r0 :: rs) with
    | nil => simp [check_route_traffic, hf] at h
    | cons f fs =>
      simp only [check_route_traffic, hf] at h
      simp only [Except.ok.injEq, Option.some.injEq] at h
      exact ⟨f, fs, rfl, h.symm⟩

/-- C1 (amended): for every directions response accepted by
check_route_traffic, effective_normal equals the supplied baseline when it
is present, non-null and nonzero, and total_normal otherwise (absent, null
or zero baselines are falsy in Python and fall back); the returned state is
"Heavy" exactly when total_delay ≥ delay_total, or effective_normal > 0 and
total_live ≥ effective_normal * factor_total, or some heavy segment exists;
in particular total_delay ≥ delay_total alone forces "Heavy" regardless of
the total_live / effective_normal ratio. -/
theorem c1_route_level_heavy_test (data : DirectionsData) (b : Option ℚ)
    (ts : List Threshold) (res : TrafficResult)
    (h : check_route_traffic data b ts = Except.ok (some res)) :
    (∀ x, b = some x → x ≠ 0 → effective_normal b res.total_normal = x) ∧
    ((b = none ∨ b = some 0) →
      effective_normal b res.total_normal = (res.total_normal : ℚ)) ∧
    (res.state = "Heavy" ↔
      ((res.total_delay : ℚ) ≥ (get_dynamic_thresholds ts res.distance_km).2.2.1 ∨
       (effective_normal b res.total_normal > 0 ∧
        (res.total_live : ℚ) ≥ effective_normal b res.total_normal *
          (get_dynamic_thresholds ts res.distance_km).1) ∨
       res.heavy_segments ≠ [])) ∧
    ((res.total_delay : ℚ) ≥ (get_dynamic_thresholds ts res.distance_km).2.2.1 →
      res.state = "Heavy") := by
  have hmain : res.state = "Heavy" ↔
      ((res.total_delay : ℚ) ≥ (get_dynamic_thresholds ts res.distance_km).2.2.1 ∨
       (effective_normal b res.total_normal > 0 ∧
        (res.total_live : ℚ) ≥ effective_normal b res.total_normal *
          (get_dynamic_thresholds ts res.distance_km).1) ∨
       res.heavy_segments ≠ []) := by
    obtain ⟨f, fs, hf, hres⟩ := check_ok_some h
    subst hres
    simp only [classify]
    rw [heavy_state_iff, Bool.or_eq_true, route_level_heavy_iff, scan_flag_iff,
      or_assoc]
  refine ⟨?_, ?_, hmain, fun hd0 => hmain.mpr (Or.inl hd0)⟩
  · intro x hx hx0
    simp [effective_normal, hx, hx0]
  · rintro (hb | hb) <;> simp [effective_normal, hb]

/-- Concrete directions leg for the C1 counterexample: normal 600 s
(10 min), live 1500 s (25 min), 25 km, no steps. -/
def c1_cex_leg : Leg := ⟨600, some 1500, 25000, none, none, []⟩

def c1_cex_route : ApiRoute := ⟨none, c1_cex_leg⟩

def c1_cex_data : DirectionsData := ⟨[c1_cex_route], none⟩

/-- Result computed by the code on c1_cex_data with baseline 0. -/
def c1_cex_result : TrafficResult := ⟨none, none, none, 10, 25, 15, 25, [], "Heavy"⟩

lemma c1_cex_tv :
    get_dynamic_thresholds DEFAULT_THRESHOLDS 25 = (3/2, 4, 30, 10) := by
  have hft : find_threshold DEFAULT_THRESHOLDS 25 = some ⟨20, 50, 3/2, 4, 30, 10⟩ := by
    simp only [DEFAULT_THRESHOLDS, find_threshold]
    norm_num
  simp [get_dynamic_thresholds, hft, threshold_values]

lemma c1_cex_eval :
    check_route_traffic c1_cex_data (some 0) DEFAULT_THRESHOLDS =
      Except.ok (some c1_cex_result) := by
  have hfil : routes_with_traffic [c1_cex_route] = [c1_cex_route] := by
    simp [routes_with_traffic, c1_cex_route, c1_cex_leg]
  have hdist : ((25000 : ℕ) : ℚ) / 1000 = 25 := by norm_num
  have hcl : classify c1_cex_route (some 0) DEFAULT_THRESHOLDS = c1_cex_result := by
    unfold classify c1_cex_route c1_cex_leg c1_cex_result
    simp only [Option.getD_some, hdist, c1_cex_tv]
    norm_num [effective_normal, route_level_heavy, scan_steps]
  simp only [check_route_traffic, c1_cex_data, hfil, pick_fastest, List.foldl_nil, hcl]

/-- C1 counterexample: with a supplied, non-null baseline of 0 the code
falls back to total_normal (Python truthiness), so on this input the state
is "Heavy" through the factor condition with effective_normal = total_normal,
while the claim's effective_normal (the supplied baseline, 0) satisfies
neither route-level condition and there are no heavy segments: the claim's
"if and only if" predicts "Normal". -/
theorem c1_counterexample :
    check_route_traffic c1_cex_data (some 0) DEFAULT_THRESHOLDS =
      Except.ok (some c1_cex_result) ∧
    c1_cex_result.state = "Heavy" ∧
    c1_cex_result.heavy_segments = [] ∧
    get_dynamic_thresholds DEFAULT_THRESHOLDS c1_cex_result.distance_km =
      (3/2, 4, 30, 10) ∧
    effective_normal_spec (some 0) c1_cex_result.total_normal = 0 ∧
    ¬((c1_cex_result.total_delay : ℚ) ≥ 30 ∨
      (effective_normal_spec (some 0) c1_cex_result.total_normal > 0 ∧
       (c1_cex_result.total_live : ℚ) ≥
         effective_normal_spec (some 0) c1_cex_result.total_normal * (3/2))) := by
  refine ⟨c1_cex_eval, rfl, rfl, c1_cex_tv, rfl, ?_⟩
  rintro (h1 | ⟨h2, _⟩)
  · norm_num [c1_cex_result] at h1
  · norm_num [effective_normal_spec, c1_cex_result] at h2

/-- Witness for C1 (amended): the theorem applied to the concrete accepted
response c1_cex_data with baseline 0. -/
theorem c1_route_level_heavy_test_witness :
    (check_route_traffic c1_cex_data (some 0) DEFAULT_THRESHOLDS =
      Except.ok (some c1_cex_result)) ∧
    (c1_cex_result.state = "Heavy" ↔
      ((c1_cex_result.total_delay : ℚ) ≥
        (get_dynamic_thresholds DEFAULT_THRESHOLDS c1_cex_result.distance_km).2.2.1 ∨
       (effective_normal (some 0) c1_cex_result.total_normal > 0 ∧
        (c1_cex_result.total_live : ℚ) ≥
          effective_normal (some 0) c1_cex_result.total_normal *
          (get_dynamic_thresholds DEFAULT_THRESHOLDS c1_cex_result.distance_km).1) ∨
       c1_cex_result.heavy_segments ≠ [])) :=
  ⟨c1_cex_eval,
   (c1_route_level_heavy_test c1_cex_data (some 0) DEFAULT_THRESHOLDS
      c1_cex_result c1_cex_eval).2.2.1⟩

lemma step_eligible_false_iff (s : Step) :
    step_eligible s = false ↔ (s.duration_in_traffic = none ∨ s.duration / 60 = 0) := by
  cases hdt : s.duration_in_traffic <;> simp [step_eligible, hdt]

/-- C2: in the selected route's leg, a step without duration_in_traffic or
whose normal duration floors to 0 minutes is never recorded (even with a
positive live duration), every other step is recorded as a heavy segment
exactly when its delay ≥ delay_step or its live ≥ normal * factor_step
(heavy_segments is precisely the in-order filter of the leg's steps by
eligibility and the segment test), and any heavy segment forces the route
state to "Heavy" independently of the route-level test. -/
theorem c2_segment_level_rule (data : DirectionsData) (b : Option ℚ)
    (ts : List Threshold) (res : TrafficResult) (f : ApiRoute) (fs : List ApiRoute)
    (h : check_route_traffic data b ts = Except.ok (some res))
    (hf : routes_with_traffic data.routes = f :: fs) :
    res.heavy_segments =
      ((pick_fastest f fs).leg.steps.filter (fun s =>
        step_eligible s &&
        step_heavy_test
          (get_dynamic_thresholds ts
            (((pick_fastest f fs).leg.distance : ℚ) / 1000)).2.1
          (get_dynamic_thresholds ts
            (((pick_fastest f fs).leg.distance : ℚ) / 1000)).2.2.2 s)).map mk_segment ∧
    (∀ s : Step,
      (s.duration_in_traffic = none ∨ s.duration / 60 = 0) ↔ step_eligible s = false) ∧
    (res.heavy_segments ≠ [] → res.state = "Heavy") := by
  obtain ⟨f', fs', hf', hres⟩ := check_ok_some h
  rw [hf] at hf'
  injection hf' with h1 h2
  subst h1
  subst h2
  subst hres
  refine ⟨?_, fun s => (step_eligible_false_iff s).symm, ?_⟩
  · simpa only [classify] using
      (scan_steps_spec
        (get_dynamic_thresholds ts (((pick_fastest f fs).leg.distance : ℚ) / 1000)).2.1
        (get_dynamic_thresholds ts (((pick_fastest f fs).leg.distance : ℚ) / 1000)).2.2.2
        (pick_fastest f fs).leg.steps).1
  · intro hne
    simp only [classify] at hne ⊢
    have hsc : (scan_steps
        (get_dynamic_thresholds ts (((pick_fastest f fs).leg.distance : ℚ) / 1000)).2.1
        (get_dynamic_thresholds ts (((pick_fastest f fs).leg.distance : ℚ) / 1000)).2.2.2
        (pick_fastest f fs).leg.steps).1 = true :=
      (scan_flag_iff _ _ _).mpr hne
    simp [hsc]

/-- Steps for the C2 witness: a step whose normal floors to 0 with live
5 min, a step without live timing, a heavy step (5 min normal, 15 min
live) and an eligible non-heavy step (5 min normal, 6 min live). -/
def c2_steps : List Step :=
  [⟨30, some 300, ""⟩, ⟨240, none, ""⟩, ⟨300, some 900, ""⟩, ⟨300, some 360, ""⟩]

def c2_leg : Leg := ⟨1200, some 1320, 10000, none, none, c2_steps⟩

def c2_route : ApiRoute := ⟨none, c2_leg⟩

def c2_data : DirectionsData := ⟨[c2_route], none⟩

def c2_result : TrafficResult :=
  ⟨none, none, none, 20, 22, 2, 10, [⟨clean_instruction "", 5, 15, 10, 3⟩], "Heavy"⟩

lemma c2_tv : get_dynamic_thresholds DEFAULT_THRESHOLDS 10 = (2, 3, 15, 5) := by
  have hft : find_threshold DEFAULT_THRESHOLDS 10 = some ⟨5, 20, 2, 3, 15, 5⟩ := by
    simp only [DEFAULT_THRESHOLDS, find_threshold]
    norm_num
  simp [get_dynamic_thresholds, hft, threshold_values]

lemma round2_three : round2 (3 : ℚ) = 3 := by
  unfold round2 round_half_even
  have h2 : (3 : ℚ) * 100 = 300 := by norm_num
  rw [h2]
  have h3 : ⌊(300 : ℚ)⌋ = 300 := by
    rw [show (300 : ℚ) = ((300 : ℤ) : ℚ) by norm_num]
    exact Int.floor_intCast 300
  rw [h3]
  norm_num

lemma c2_seg_eval :
    mk_segment ⟨300, some 900, ""⟩ = ⟨clean_instruction "", 5, 15, 10, 3⟩ := by
  norm_num [mk_segment, round2_three]

lemma c2_scan_eval :
    scan_steps 3 5 c2_steps = (true, [⟨clean_instruction "", 5, 15, 10, 3⟩]) := by
  simp only [c2_steps, scan_steps, c2_seg_eval]
  norm_num [c2_seg_eval]

lemma c2_fil : routes_with_traffic [c2_route] = [c2_route] := by
  simp [routes_with_traffic, c2_route, c2_leg]

lemma c2_eval :
    check_route_traffic c2_data none DEFAULT_THRESHOLDS =
      Except.ok (some c2_result) := by
  have hdist : ((10000 : ℕ) : ℚ) / 1000 = 10 := by norm_num
  have hcl : classify c2_route none DEFAULT_THRESHOLDS = c2_result := by
    unfold classify c2_route c2_leg c2_result
    simp only [Option.getD_some, hdist, c2_tv, c2_scan_eval]
    norm_num [effective_normal, route_level_heavy]
  simp only [check_route_traffic, c2_data, c2_fil, pick_fastest, List.foldl_nil, hcl]

/-- Witness for C2: the theorem applied to the concrete response c2_data,
whose leg holds a zero-normal step with positive live time, a step without
live timing, one heavy step and one eligible non-heavy step. -/
theorem c2_segment_level_rule_witness :
    (check_route_traffic c2_data none DEFAULT_THRESHOLDS =
      Except.ok (some c2_result)) ∧
    (routes_with_traffic c2_data.routes = c2_route :: []) ∧
    (c2_result.heavy_segments =
      ((pick_fastest c2_route []).leg.steps.filter (fun s =>
        step_eligible s &&
        step_heavy_test
          (get_dynamic_thresholds DEFAULT_THRESHOLDS
            (((pick_fastest c2_route []).leg.distance : ℚ) / 1000)).2.1
          (get_dynamic_thresholds DEFAULT_THRESHOLDS
            (((pick_fastest c2_route []).leg.distance : ℚ) / 1000)).2.2.2 s)).map
        mk_segment ∧
    (∀ s : Step,
      (s.duration_in_traffic = none ∨ s.duration / 60 = 0) ↔ step_eligible s = false) ∧
    (c2_result.heavy_segments ≠ [] → c2_result.state = "Heavy")) :=
  ⟨c2_eval, c2_fil,
   c2_segment_level_rule c2_data none DEFAULT_THRESHOLDS c2_result c2_route []
     c2_eval c2_fil⟩

/-- C7: check_route_traffic distinguishes the two empty outcomes: zero
routes with no error message yields the non-error empty result (ok none),
while a non-empty route list in which no route carries duration_in_traffic
raises the no-usable-routes error. -/
theorem c7_empty_vs_no_traffic_data (data : DirectionsData) (b : Option ℚ)
    (ts : List Threshold) :
    (data.routes = [] → data.error_message = none →
      check_route_traffic data b ts = Except.ok none) ∧
    (data.routes ≠ [] →
      (∀ r ∈ data.routes, r.leg.duration_in_traffic = none) →
      check_route_traffic data b ts =
        Except.error "No routes with traffic data available") := by
  obtain ⟨routes, err⟩ := data
  constructor
  · intro hr he
    simp only at hr he
    subst hr
    subst he
    rfl
  · intro hr hall
    simp only at hr hall
    cases routes with
    | nil => exact absurd rfl hr
    | cons r0 rs =>
      have hfil : routes_with_traffic (r0 :: rs) = [] := by
        simp only [routes_with_traffic, List.filter_eq_nil_iff]
        intro r hrm
        simp [hall r hrm]
      simp only [check_route_traffic, hfil]

/-- Witness for C7: a zero-route response without error message yields
ok none, while a one-route response whose leg has no duration_in_traffic
yields the no-usable-routes error. -/
theorem c7_empty_vs_no_traffic_data_witness :
    (check_route_traffic ⟨[], none⟩ none DEFAULT_THRESHOLDS = Except.ok none) ∧
    (check_route_traffic ⟨[⟨none, ⟨600, none, 1000, none, none, []⟩⟩], none⟩ none
        DEFAULT_THRESHOLDS =
      Except.error "No routes with traffic data available") :=
  ⟨(c7_empty_vs_no_traffic_data ⟨[], none⟩ none DEFAULT_THRESHOLDS).1 rfl rfl,
   (c7_empty_vs_no_traffic_data ⟨[⟨none, ⟨600, none, 1000, none, none, []⟩⟩], none⟩
      none DEFAULT_THRESHOLDS).2 (by simp)
     (by
        intro r hr
        simp only [List.mem_singleton] at hr
        subst hr
        rfl)⟩

/-! Route state store model: the routes table as a list of rows, with the
historical_times JSON column already parsed.  History entries are JSON
objects whose fields may individually be absent. -/

/-- One entry of a route's historical_times sequence. -/
structure HistEntry where
  timestamp : Option String
  normal_time : Option ℚ
  state : Option String
deriving Repr, DecidableEq

/-- calculate_baseline (traffic_utils.py lines 230-242): arithmetic mean of
the normal_time values of the entries that carry one; None for an empty
history or when no entry carries the field.  A pure function. -/
def calculate_baseline (historical_times : List HistEntry) : Option ℚ :=
  if historical_times = [] then none
  else
    let times := historical_times.filterMap (fun e => e.normal_time)
    if times = [] then none
    else some (times.sum / times.length)

/-- One row of the routes table. -/
structure RouteRow where
  id : ℕ
  name : String
  start_lat : ℚ
  start_lng : ℚ
  end_lat : ℚ
  end_lng : ℚ
  last_normal_time : Option ℕ
  last_state : Option String
  historical_times : List HistEntry
  priority : String
deriving Repr, DecidableEq

/-- Python slice l[-n:]: the last n elements (the whole list when it is
shorter than n). -/
def last_n (n : ℕ) (l : List α) : List α := l.drop (l.length - n)

/-- update_route_time (traffic_utils.py lines 146-175): a None route_id
returns immediately; otherwise read the row's history (empty when the row
is missing), append a {timestamp, normal_time, state} entry, keep the last
20 entries, and write the new history together with last_normal_time and
last_state to the rows matching the id (id is the primary key).  The `now`
argument models datetime.now().isoformat(). -/
def update_route_time (route_id : Option ℕ) (normal_time : ℕ) (state : String)
    (now : String) (db : List RouteRow) : List RouteRow :=
  match route_id with
  | none => db
  | some rid =>
    let historical :=
      match db.find? (fun r => r.id == rid) with
      | some r => r.historical_times
      | none => []
    let entry : HistEntry := ⟨some now, some (normal_time : ℚ), some state⟩
    let trimmed := last_n 20 (historical ++ [entry])
    db.map (fun r =>
      if r.id == rid then
        { r with last_normal_time := some normal_time, last_state := some state,
                 historical_times := trimmed }
      else r)

lemma calculate_baseline_eq (h : List HistEntry) :
    calculate_baseline h =
      if h.filterMap (fun e => e.normal_time) = [] then none
      else some ((h.filterMap (fun e => e.normal_time)).sum /
        (h.filterMap (fun e => e.normal_time)).length) := by
  cases h with
  | nil => rfl
  | cons a t => simp only [calculate_baseline, if_neg (List.cons_ne_nil a t)]

/-- C6: the baseline estimator is a pure function returning the arithmetic
mean of the normal_time values of exactly the entries carrying that field,
and None when the history is empty or no entry carries the field;
baseline([]) = None and baseline([{normal_time:10},{normal_time:20}]) = 15. -/
theorem c6_calculate_baseline_mean :
    calculate_baseline [] = none ∧
    calculate_baseline [⟨none, some 10, none⟩, ⟨none, some 20, none⟩] = some 15 ∧
    (∀ h : List HistEntry,
      (calculate_baseline h = none ↔ ∀ e ∈ h, e.normal_time = none)) ∧
    (∀ h : List HistEntry,
      calculate_baseline h =
        if h.filterMap (fun e => e.normal_time) = [] then none
        else some ((h.filterMap (fun e => e.normal_time)).sum /
          (h.filterMap (fun e => e.normal_time)).length)) := by
  refine ⟨rfl, ?_, ?_, calculate_baseline_eq⟩
  · rw [calculate_baseline_eq]
    norm_num [List.filterMap_cons, List.sum_cons, List.sum_nil]
    exact fun hcon => absurd hcon (by simp)
  · intro h
    rw [calculate_baseline_eq h]
    by_cases hf : h.filterMap (fun e => e.normal_time) = []
    · rw [if_pos hf]
      exact iff_of_true rfl (List.filterMap_eq_nil_iff.mp hf)
    · rw [if_neg hf]
      exact iff_of_false (by simp)
        (fun hall => hf (List.filterMap_eq_nil_iff.mpr hall))

/-- C10: calling update_route_time with a null route_id is a no-op — the
whole routes table, and so every row's last_state, last_normal_time and
historical_times, is unchanged. -/
theorem c10_update_route_time_none_noop (normal_time : ℕ) (state : String)
    (now : String) (db : List RouteRow) :
    update_route_time none normal_time state now db = db ∧
    (∀ r ∈ db, r ∈ update_route_time none normal_time state now db) :=
  ⟨rfl, fun _ hr => hr⟩

lemma last_n_length_le (n : ℕ) (l : List α) : (last_n n l).length ≤ n := by
  unfold last_n
  rw [List.length_drop]
  omega

lemma last_n_of_len_le (n : ℕ) (l : List α) (h : l.length ≤ n) : last_n n l = l := by
  unfold last_n
  rw [Nat.sub_eq_zero_of_le h, List.drop_zero]

lemma last_n_append_getLast? (n : ℕ) (hn : 0 < n) (l : List α) (a : α) :
    (last_n n (l ++ [a])).getLast? = some a := by
  unfold last_n
  have hlen : (l ++ [a]).length = l.length + 1 := by simp
  rw [hlen]
  have hk : l.length + 1 - n ≤ l.length := by omega
  rw [List.drop_append_of_le_length hk]
  exact List.getLast?_concat _

lemma find?_update_map (db : List RouteRow) (rid : ℕ) (g : RouteRow → RouteRow)
    (hg : ∀ r, (g r).id = r.id) :
    (db.map (fun r => if r.id == rid then g r else r)).find?
        (fun r => r.id == rid) =
      (db.find? (fun r => r.id == rid)).map g := by
  induction db with
  | nil => rfl
  | cons r rest ih =>
    simp only [List.map_cons]
    by_cases hr : (r.id == rid) = true
    · have hpa : ((g r).id == rid) = true := by rw [hg r]; exact hr
      rw [if_pos hr]
      simp only [List.find?, hpa, hr]
      rfl
    · have hpa : (r.id == rid) = false := by simpa using hr
      rw [if_neg hr]
      simp only [List.find?, hpa]
      exact ih

lemma last_n_20_evict (l : List HistEntry) (a : HistEntry) (h : l.length = 20) :
    last_n 20 (l ++ [a]) = l.tail ++ [a] := by
  unfold last_n
  rw [List.length_append, List.length_singleton, h]
  rw [show (20 + 1 : ℕ) - 20 = 1 from rfl,
    List.drop_append_of_le_length (by omega), List.drop_one]

/-- C5: for every table and every call with a non-null route_id whose row
exists, the row's history after the call holds at most 20 entries, ends
with the new {timestamp, normal_time, state} entry, is plain appending
while at most 19 entries were stored, and evicts exactly the oldest entry
when 20 entries were already stored (FIFO by append order). -/
theorem c5_history_bounded_fifo (db : List RouteRow) (rid normal_time : ℕ)
    (state now : String) (r : RouteRow)
    (hr : db.find? (fun x => x.id == rid) = some r) :
    ∃ r', (update_route_time (some rid) normal_time state now db).find?
        (fun x => x.id == rid) = some r' ∧
      r'.historical_times =
        last_n 20 (r.historical_times ++
          [⟨some now, some (normal_time : ℚ), some state⟩]) ∧
      r'.historical_times.length ≤ 20 ∧
      r'.historical_times.getLast? =
        some ⟨some now, some (normal_time : ℚ), some state⟩ ∧
      (r.historical_times.length ≤ 19 →
        r'.historical_times =
          r.historical_times ++ [⟨some now, some (normal_time : ℚ), some state⟩]) ∧
      (r.historical_times.length = 20 →
        r'.historical_times =
          r.historical_times.tail ++
            [⟨some now, some (normal_time : ℚ), some state⟩]) := by
  have hupd : update_route_time (some rid) normal_time state now db =
      db.map (fun x => if x.id == rid then
        { x with last_normal_time := some normal_time, last_state := some state,
                 historical_times := last_n 20 (r.historical_times ++
                   [⟨some now, some (normal_time : ℚ), some state⟩]) }
      else x) := by
    simp only [update_route_time, hr]
  let r2 : RouteRow :=
    { r with last_normal_time := some normal_time, last_state := some state,
             historical_times := last_n 20 (r.historical_times ++
               [⟨some now, some (normal_time : ℚ), some state⟩]) }
  refine ⟨r2, ?_, rfl,
    last_n_length_le 20 _, last_n_append_getLast? 20 (by omega) _ _, ?_, ?_⟩
  · rw [hupd, find?_update_map db rid (fun x =>
      { x with last_normal_time := some normal_time, last_state := some state,
               historical_times := last_n 20 (r.historical_times ++
                 [⟨some now, some (normal_time : ℚ), some state⟩]) }) (fun x => rfl), hr]
    rfl
  · intro hlen
    refine last_n_of_len_le 20 _ ?_
    rw [List.length_append, List.length_singleton]
    omega
  · intro hlen
    exact last_n_20_evict r.historical_times _ hlen

def c5_row : RouteRow := ⟨1, "r", 0, 0, 0, 0, none, none, [], "Normal"⟩

/-- Witness for C5: updating the single-row table at id 1 with
normal_time 7, state "Heavy" and timestamp "t1". -/
theorem c5_history_bounded_fifo_witness :
    ([c5_row].find? (fun x => x.id == 1) = some c5_row) ∧
    (∃ r', (update_route_time (some 1) 7 "Heavy" "t1" [c5_row]).find?
        (fun x => x.id == 1) = some r' ∧
      r'.historical_times =
        last_n 20 (c5_row.historical_times ++ [⟨some "t1", some (7 : ℚ), some "Heavy"⟩]) ∧
      r'.historical_times.length ≤ 20 ∧
      r'.historical_times.getLast? = some ⟨some "t1", some (7 : ℚ), some "Heavy"⟩ ∧
      (c5_row.historical_times.length ≤ 19 →
        r'.historical_times =
          c5_row.historical_times ++ [⟨some "t1", some (7 : ℚ), some "Heavy"⟩]) ∧
      (c5_row.historical_times.length = 20 →
        r'.historical_times =
          c5_row.historical_times.tail ++ [⟨some "t1", some (7 : ℚ), some "Heavy"⟩])) :=
  ⟨rfl, c5_history_bounded_fifo [c5_row] 1 7 "Heavy" "t1" c5_row rfl⟩

/-- Python str.lower as used on the state strings here: character-wise
lowering (the compared state strings are ASCII). -/
def py_lower (s : String) : String := ⟨s.data.map Char.toLower⟩

/-- The alert decision of post_traffic_alerts_async (discord_notify.py
lines 346-353) for a single route entry: the current status lowered; the
previous state lowered when present and non-empty (Python truthiness of
route.get("prev_state")), else the empty string; alert when the current
state is "heavy", or the previous was "heavy" and the current is
"normal". -/
def should_alert (prev_state : Option String) (current_state : String) : Bool :=
  let current := py_lower current_state
  let prev :=
    match prev_state with
    | some s => if s = "" then "" else py_lower s
    | none => ""
  (current == "heavy") || (prev == "heavy" && current == "normal")

/-- C4: an alert is warranted iff the current state is "Heavy"
(case-insensitively), or the previous state is "Heavy" and the current is
"Normal" (recovery), with the five instances of the claim. -/
theorem c4_alert_policy :
    (∀ (prev : Option String) (cur : String),
      should_alert prev cur = true ↔
        (py_lower cur = "heavy" ∨
         ((∃ s, prev = some s ∧ py_lower s = "heavy") ∧ py_lower cur = "normal"))) ∧
    should_alert (some "Normal") "Normal" = false ∧
    should_alert (some "Heavy") "Heavy" = true ∧
    should_alert (some "Heavy") "Normal" = true ∧
    should_alert none "Normal" = false ∧
    should_alert none "Heavy" = true := by
  refine ⟨?_, by decide, by decide, by decide, by decide, by decide⟩
  intro prev cur
  cases prev with
  | none =>
    have h0 : (("" : String) == "heavy") = false := by decide
    simp [should_alert, h0]
  | some s =>
    by_cases hs : s = ""
    · subst hs
      have h0 : (("" : String) == "heavy") = false := by decide
      have h1 : py_lower "" ≠ "heavy" := by decide
      simp [should_alert, h0, h1]
    · simp [should_alert, hs]

/-! Batch orchestrators.  The `net` argument maps a route id to the parsed
directions response the HTTP call for that route's coordinates returns. -/

/-- One result dictionary of process_all_routes (lines 501-509), with the
numeric values that the formatted display strings are rendered from. -/
structure ProcessResult where
  route_id : ℕ
  name : String
  state : String
  distance_km : ℚ
  total_live : ℕ
  total_delay : ℕ
  total_normal : ℕ
deriving Repr, DecidableEq

/-- The per-route classification loop of process_all_routes
(traffic_utils.py lines 484-514): compute the baseline from the row's
stored history and classify; nothing catches a raised provider error there,
so it propagates out of the loop; an empty (None) classification is skipped
without recording anything; a successful one appends a result row. -/
def process_routes_loop (net : ℕ → DirectionsData) (thresholds : List Threshold) :
    List RouteRow → Except String (List ProcessResult)
  | [] => Except.ok []
  | r :: rest =>
    match check_route_traffic (net r.id) (calculate_baseline r.historical_times)
        thresholds with
    | Except.error e => Except.error e
    | Except.ok none => process_routes_loop net thresholds rest
    | Except.ok (some t) =>
      match process_routes_loop net thresholds rest with
      | Except.error e => Except.error e
      | Except.ok results =>
        Except.ok (⟨r.id, r.name, t.state, t.distance_km, t.total_live,
          t.total_delay, t.total_normal⟩ :: results)

/-- process_all_routes (traffic_utils.py lines 466-522): run the
classification loop over the whole table, then write each result back with
update_route_time (that second loop catches store errors per result; the
pure model's update cannot fail).  A provider exception raised during the
classification loop aborts the whole call. -/
def process_all_routes (net : ℕ → DirectionsData) (thresholds : List Threshold)
    (now : String) (db : List RouteRow) :
    Except String (List ProcessResult × List RouteRow) :=
  match process_routes_loop net thresholds db with
  | Except.error e => Except.error e
  | Except.ok results =>
    Except.ok (results, results.foldl
      (fun d res => update_route_time (some res.route_id) res.total_normal
        res.state now d) db)

/-- get_last_state (discord_notify.py lines 254-259). -/
def get_last_state (rid : ℕ) (db : List RouteRow) : Option String :=
  match db.find? (fun r => r.id == rid) with
  | some r => r.last_state
  | none => none

/-- update_last_state (discord_notify.py lines 262-268). -/
def update_last_state (rid : ℕ) (new_state : String) (db : List RouteRow) :
    List RouteRow :=
  db.map (fun r => if r.id == rid then { r with last_state := some new_state } else r)

/-- One route_data entry built by post_traffic_alerts_async; prev_state is
none when the entry was built without the key (Unknown and Error rows). -/
structure AlertRow where
  name : String
  status : String
  delay : ℕ
  distance_km : ℚ
  prev_state : Option String
deriving Repr, DecidableEq

/-- The per-route loop of post_traffic_alerts_async (discord_notify.py
lines 287-343): each body runs inside try/except, so a failed
classification is recorded as an "Error" row for that route and the loop
continues; an empty (None) classification is recorded as "Unknown"; a
successful one records the state with the previously stored last_state
(read before the row is updated) and then applies update_route_time and
update_last_state.  The loop iterates the up-front routes snapshot while
threading the live table. -/
def post_alerts_loop (net : ℕ → DirectionsData) (thresholds : List Threshold)
    (now : String) : List RouteRow → List RouteRow → List AlertRow × List RouteRow
  | [], db => ([], db)
  | r :: rest, db =>
    match check_route_traffic (net r.id) (calculate_baseline r.historical_times)
        thresholds with
    | Except.error _ =>
      let tail := post_alerts_loop net thresholds now rest db
      (⟨r.name, "Error", 0, 0, none⟩ :: tail.1, tail.2)
    | Except.ok none =>
      let tail := post_alerts_loop net thresholds now rest db
      (⟨r.name, "Unknown", 0, 0, none⟩ :: tail.1, tail.2)
    | Except.ok (some t) =>
      let prev := get_last_state r.id db
      let db1 := update_route_time (some r.id) t.total_normal t.state now db
      let db2 := update_last_state r.id t.state db1
      let tail := post_alerts_loop net thresholds now rest db2
      (⟨r.name, t.state, t.total_delay, t.distance_km, prev⟩ :: tail.1, tail.2)

/-- C8 (amended): in the Discord orchestrator post_traffic_alerts_async a
per-route classification failure is surfaced as a status "Error" entry for
that route only (an empty classification as "Unknown"), and every
remaining route in the batch is still processed: route_data holds exactly
one entry per route of the snapshot, in order, each status determined by
that route's own response.  (process_all_routes, by contrast, propagates a
provider error and aborts its batch: see the counterexample.) -/
theorem c8_batch_continuation (net : ℕ → DirectionsData)
    (thresholds : List Threshold) (now : String) (routes db : List RouteRow) :
    ((post_alerts_loop net thresholds now routes db).1.length = routes.length) ∧
    ((post_alerts_loop net thresholds now routes db).1.map AlertRow.name =
      routes.map RouteRow.name) ∧
    ((post_alerts_loop net thresholds now routes db).1.map AlertRow.status =
      routes.map (fun r =>
        match check_route_traffic (net r.id)
            (calculate_baseline r.historical_times) thresholds with
        | Except.error _ => "Error"
        | Except.ok none => "Unknown"
        | Except.ok (some t) => t.state)) := by
  induction routes generalizing db with
  | nil => exact ⟨rfl, rfl, rfl⟩
  | cons r rest ih =>
    cases hc : check_route_traffic (net r.id)
        (calculate_baseline r.historical_times) thresholds with
    | error e =>
      obtain ⟨ih1, ih2, ih3⟩ := ih db
      simp [post_alerts_loop, hc, ih1, ih2, ih3]
    | ok o =>
      cases o with
      | none =>
        obtain ⟨ih1, ih2, ih3⟩ := ih db
        simp [post_alerts_loop, hc, ih1, ih2, ih3]
      | some t =>
        obtain ⟨ih1, ih2, ih3⟩ := ih
          (update_last_state r.id t.state
            (update_route_time (some r.id) t.total_normal t.state now db))
        simp [post_alerts_loop, hc, ih1, ih2, ih3]

def c8_route1 : RouteRow := ⟨1, "A", 0, 0, 0, 0, none, none, [], "Normal"⟩

def c8_route2 : RouteRow := ⟨2, "B", 0, 0, 0, 0, none, none, [], "Normal"⟩

/-- Network for the C8 counterexample: route 1's directions call returns an
API error (no routes, error_message "boom"); route 2's call returns a
usable response (normal 600 s, live 660 s, 10 km, no steps). -/
def c8_net : ℕ → DirectionsData := fun rid =>
  if rid = 1 then ⟨[], some "boom"⟩
  else ⟨[⟨none, ⟨600, some 660, 10000, none, none, []⟩⟩], none⟩

def c8_result2 : TrafficResult := ⟨none, none, none, 10, 11, 1, 10, [], "Normal"⟩

lemma c8_check1 :
    check_route_traffic (c8_net 1) (calculate_baseline []) DEFAULT_THRESHOLDS =
      Except.error "Google Maps API error: boom" := by
  show check_route_traffic ⟨[], some "boom"⟩ none DEFAULT_THRESHOLDS = _
  simp only [check_route_traffic]
  rw [if_neg (by decide)]
  rfl

lemma c8_check2 :
    check_route_traffic (c8_net 2) (calculate_baseline []) DEFAULT_THRESHOLDS =
      Except.ok (some c8_result2) := by
  show check_route_traffic
    ⟨[⟨none, ⟨600, some 660, 10000, none, none, []⟩⟩], none⟩ none DEFAULT_THRESHOLDS = _
  have hfil : routes_with_traffic [⟨none, ⟨600, some 660, 10000, none, none, []⟩⟩] =
      [⟨none, ⟨600, some 660, 10000, none, none, []⟩⟩] := by
    simp [routes_with_traffic]
  have hdist : ((10000 : ℕ) : ℚ) / 1000 = 10 := by norm_num
  have hcl : classify ⟨none, ⟨600, some 660, 10000, none, none, []⟩⟩ none
      DEFAULT_THRESHOLDS = c8_result2 := by
    unfold classify c8_result2
    simp only [Option.getD_some, hdist, c2_tv]
    norm_num [effective_normal, route_level_heavy, scan_steps]
  simp only [check_route_traffic, hfil, pick_fastest, List.foldl_nil, hcl]

/-- C8 counterexample: with route 1's directions call failing and route 2's
succeeding, process_all_routes aborts the whole batch with the provider
error — no per-route failed result is recorded and route 2, although
processable on its own (second conjunct), contributes nothing. -/
theorem c8_counterexample :
    process_all_routes c8_net DEFAULT_THRESHOLDS "t0" [c8_route1, c8_route2] =
      Except.error "Google Maps API error: boom" ∧
    process_routes_loop c8_net DEFAULT_THRESHOLDS [c8_route2] =
      Except.ok [⟨2, "B", "Normal", 10, 11, 1, 10⟩] := by
  constructor
  · have h1 : process_routes_loop c8_net DEFAULT_THRESHOLDS [c8_route1, c8_route2] =
        Except.error "Google Maps API error: boom" := by
      show process_routes_loop c8_net DEFAULT_THRESHOLDS (c8_route1 :: [c8_route2]) = _
      simp only [process_routes_loop, c8_route1, c8_check1]
    simp only [process_all_routes, h1]
  · show process_routes_loop c8_net DEFAULT_THRESHOLDS (c8_route2 :: []) = _
    simp only [process_routes_loop, c8_route2, c8_check2]
    rfl

/-! Ignition debounce state machine
(src/ignition_subscriber/subscriber.py).  Clock readings are ℚ; the
trip_events counter counts invocations of the _handle_ignition_on pipeline
(its body runs under try/except, so an invocation always counts). -/

structure IgnitionState where
  ignition_state : Bool
  last_msg_time : Option ℚ
  timeout : ℚ
  message_timestamps : List ℚ
  last_frequency_update : ℚ
  trip_events : ℕ
deriving Repr, DecidableEq

/-- IgnitionMonitor state after __init__ (subscriber.py lines 11-31):
OFF, no message seen, 10 s initial timeout, empty timestamp window;
`t0` models the construction-time time.time() reading. -/
def init_state (t0 : ℚ) : IgnitionState := ⟨false, none, 10, [], t0, 0⟩

/-- Consecutive differences of a timestamp list
(_update_timeout, subscriber.py lines 96-99). -/
def adjacent_intervals : List ℚ → List ℚ
  | [] => []
  | [_] => []
  | a :: b :: rest => (b - a) :: adjacent_intervals (b :: rest)

/-- _update_timeout (subscriber.py lines 80-113): at most once per 60 s
window and only with at least two recorded timestamps, average the
intervals of the messages of the last 60 s and set timeout to
max(2 * average, 5) when it moved by more than 1; the window marker is
refreshed whenever the two entry guards pass. -/
def update_timeout (current_time : ℚ) (s : IgnitionState) : IgnitionState :=
  if current_time - s.last_frequency_update < 60 then s
  else if s.message_timestamps.length < 2 then s
  else
    let recent := s.message_timestamps.filter (fun t => current_time - t ≤ 60)
    let s1 :=
      if 2 ≤ recent.length then
        let intervals := adjacent_intervals recent
        if intervals ≠ [] then
          let avg := intervals.sum / intervals.length
          let new_timeout := max (avg * 2) 5
          if 1 < |new_timeout - s.timeout| then { s with timeout := new_timeout }
          else s
        else s
      else s
    { s1 with last_frequency_update := current_time }

/-- on_message (subscriber.py lines 42-62) for a successfully decoded
payload: record the message time (also in the 100-deep frequency window),
run the timeout adaption, and when the payload's ignition flag is true
while the state is OFF run _handle_ignition_on (lines 64-78), which sets
the state to ON and fires the trip-started pipeline. -/
def on_message (now : ℚ) (ignition_on : Bool) (s : IgnitionState) : IgnitionState :=
  let s1 := { s with last_msg_time := some now,
                     message_timestamps := last_n 100 (s.message_timestamps ++ [now]) }
  let s2 := update_timeout now s1
  if ignition_on && !s2.ignition_state then
    { s2 with ignition_state := true, trip_events := s2.trip_events + 1 }
  else s2

/-- One iteration of the polling monitor _monitor_ignition (subscriber.py
lines 115-128): while ON with a recorded message time whose age exceeds
the timeout, flip to OFF and clear the message time (time.time() readings
are positive, so Python's truthiness test on last_msg_time is a presence
test). -/
def monitor_tick (now : ℚ) (s : IgnitionState) : IgnitionState :=
  match s.last_msg_time with
  | some t =>
    if s.ignition_state = true ∧ s.timeout < now - t then
      { s with ignition_state := false, last_msg_time := none }
    else s
  | none => s

lemma update_timeout_preserves (ct : ℚ) (s : IgnitionState) :
    (update_timeout ct s).ignition_state = s.ignition_state ∧
    (update_timeout ct s).last_msg_time = s.last_msg_time ∧
    (update_timeout ct s).trip_events = s.trip_events := by
  unfold update_timeout
  refine ⟨?_, ?_, ?_⟩ <;> (dsimp only; repeat' split) <;> rfl

/-- C9: single-step laws of the ignition debounce machine.  An
ignition-true message while OFF turns the state ON and fires the
trip-started pipeline exactly once; any message while ON (in particular
further ignition-true messages) refreshes last_msg_time without re-firing;
an ignition-false message while OFF fires nothing; the polling monitor
leaves the state untouched while OFF, while no message time is recorded,
and while the gap does not exceed the timeout — it flips to OFF exactly
when ON and now - last_msg_time > timeout, clearing last_msg_time (so the
flip happens once per gap) and firing nothing; a subsequent ignition-true
message then fires exactly one new trip-started event (first law). -/
theorem c9_ignition_debounce (s : IgnitionState) (now : ℚ) (ig : Bool) :
    (s.ignition_state = false → ig = true →
      (on_message now ig s).ignition_state = true ∧
      (on_message now ig s).trip_events = s.trip_events + 1 ∧
      (on_message now ig s).last_msg_time = some now) ∧
    (s.ignition_state = true →
      (on_message now ig s).ignition_state = true ∧
      (on_message now ig s).trip_events = s.trip_events ∧
      (on_message now ig s).last_msg_time = some now) ∧
    (s.ignition_state = false → ig = false →
      (on_message now ig s).ignition_state = false ∧
      (on_message now ig s).trip_events = s.trip_events) ∧
    (s.ignition_state = false → monitor_tick now s = s) ∧
    (s.last_msg_time = none → monitor_tick now s = s) ∧
    (∀ t, s.last_msg_time = some t → s.ignition_state = true →
      ¬(s.timeout < now - t) → monitor_tick now s = s) ∧
    (∀ t, s.last_msg_time = some t → s.ignition_state = true →
      s.timeout < now - t →
      (monitor_tick now s).ignition_state = false ∧
      (monitor_tick now s).last_msg_time = none ∧
      (monitor_tick now s).trip_events = s.trip_events) := by
  obtain ⟨ist, lmt, tout, mts, lfu, te⟩ := s
  dsimp only
  refine ⟨?_, ?_, ?_, ?_, ?_, ?_, ?_⟩
  · intro hst hig
    subst hst
    subst hig
    have hp := update_timeout_preserves now
      ⟨false, some now, tout, last_n 100 (mts ++ [now]), lfu, te⟩
    simp [on_message, hp.1, hp.2.1, hp.2.2]
  · intro hst
    subst hst
    have hp := update_timeout_preserves now
      ⟨true, some now, tout, last_n 100 (mts ++ [now]), lfu, te⟩
    simp [on_message, hp.1, hp.2.1, hp.2.2]
  · intro hst hig
    subst hst
    subst hig
    have hp := update_timeout_preserves now
      ⟨false, some now, tout, last_n 100 (mts ++ [now]), lfu, te⟩
    simp [on_message, hp.1, hp.2.1, hp.2.2]
  · intro hst
    subst hst
    cases lmt with
    | none => rfl
    | some t => simp [monitor_tick]
  · intro hl
    subst hl
    rfl
  · intro t hl hst hno
    subst hst
    cases hl
    simp [monitor_tick, hno]
  · intro t hl hst ht
    subst hst
    cases hl
    simp [monitor_tick, ht]

/-- Witness for C9: from the freshly constructed monitor (OFF), an
ignition-true message at time 5 turns the state ON with exactly one
trip-started event; and a monitor poll at time 20 against an ON state
whose last message at time 5 is older than the 10 s timeout flips the
state OFF, clears the message time and fires nothing. -/
theorem c9_ignition_debounce_witness :
    ((init_state 0).ignition_state = false) ∧
    ((on_message 5 true (init_state 0)).ignition_state = true ∧
     (on_message 5 true (init_state 0)).trip_events = (init_state 0).trip_events + 1 ∧
     (on_message 5 true (init_state 0)).last_msg_time = some 5) ∧
    ((⟨true, some 5, 10, [5], 0, 1⟩ : IgnitionState).timeout < 20 - 5) ∧
    ((monitor_tick 20 ⟨true, some 5, 10, [5], 0, 1⟩).ignition_state = false ∧
     (monitor_tick 20 ⟨true, some 5, 10, [5], 0, 1⟩).last_msg_time = none ∧
     (monitor_tick 20 ⟨true, some 5, 10, [5], 0, 1⟩).trip_events =
       (⟨true, some 5, 10, [5], 0, 1⟩ : IgnitionState).trip_events) :=
  ⟨rfl,
   (c9_ignition_debounce (init_state 0) 5 true).1 rfl rfl,
   by norm_num,
   (c9_ignition_debounce ⟨true, some 5, 10, [5], 0, 1⟩ 20 true).2.2.2.2.2.2
     5 rfl rfl (by norm_num)⟩
